import Mathlib

/-!
Verification of the transcription pipeline in `Transcribe/transcribe.py`.

The pipeline converts an audio file into three artifacts (plain text,
SRT subtitles, structured JSON).  We give a shallow embedding of the
pure parts (timestamp formatting, text trimming, the three renderers,
path suffix replacement) and a step model of `main`'s effectful control
flow, and prove the specified properties about them.

Python floats are modelled by rationals; Python `int` by `Int`/`Nat`
(Python `//` and `%` with a positive divisor agree with Euclidean
division, which is what `/` and `%` mean on Lean `Int`).
-/

namespace Transcribe

/-- Python's builtin `round` with no digit argument: round half to even,
returning an integer.  Used on `seconds * 1000` in `format_srt_time`. -/
def pyRound (q : ℚ) : ℤ :=
  let f := q.floor
  let r := q - (f : ℚ)
  if r < 1/2 then f
  else if 1/2 < r then f + 1
  else if f % 2 = 0 then f else f + 1

/-- Decimal rendering of a natural number zero-padded on the left to at
least `w` digits, as Python's format spec `0{w}d` produces for
non-negative values (unbounded above `w`). -/
def pad (w : Nat) (n : Nat) : String :=
  let s := toString n
  if w ≤ s.length then s else String.mk (List.replicate (w - s.length) '0') ++ s

/-- Python `f"{n:0{w}d}"` for an `int`: the sign precedes the zero
padding (`f"{-5:03d}" = "-05"`). -/
def intPad (w : Nat) (n : ℤ) : String :=
  if n < 0 then "-" ++ pad (w - 1) n.natAbs else pad w n.natAbs

/-- `format_srt_time` from `transcribe.py` lines 13-22: SRT timestamp
`HH:MM:SS,mmm`.  `ms = int(round(seconds * 1000))`, then successive
floor division / remainder by 3 600 000, 60 000 and 1000. -/
def format_srt_time (seconds : ℚ) : String :=
  let ms0 : ℤ := pyRound (seconds * 1000)
  let h := ms0 / 3600000
  let ms1 := ms0 % 3600000
  let m := ms1 / 60000
  let ms2 := ms1 % 60000
  let s := ms2 / 1000
  let ms := ms2 % 1000
  intPad 2 h ++ ":" ++ intPad 2 m ++ ":" ++ intPad 2 s ++ "," ++ intPad 3 ms

/-- A recognized speech segment as produced by the model: start/end in
seconds and raw text.  The Python attribute `end` is a reserved word in
Lean, so the field is named `end_`. -/
structure Segment where
  start : ℚ
  end_ : ℚ
  text : String

/-- Whitespace in the sense of Python's `str.strip()` (restricted to the
ASCII whitespace characters: space, tab, newline, vertical tab, form
feed, carriage return). -/
def isPyWhitespace (c : Char) : Bool :=
  c = ' ' || c.toNat = 9 || c.toNat = 10 || c.toNat = 11 || c.toNat = 12 || c.toNat = 13

/-- Python `str.strip()`: drop leading and trailing whitespace. -/
def pyStrip (s : String) : String :=
  String.mk (((s.data.dropWhile isPyWhitespace).reverse.dropWhile isPyWhitespace).reverse)

/-- Step of the progress loop, `transcribe.py` lines 83-85: the updated
`last_t = max(last_t, seg.end)` together with the amount passed to
`pbar.update`, namely `max(0.0, new_t - last_t)`. -/
def progressStep (last_t : ℚ) (seg : Segment) : ℚ × ℚ :=
  let new_t := max last_t seg.end_
  (new_t, max 0 (new_t - last_t))

/-- The successive values of covered audio time (`last_t`) over a
segment stream, starting from `0.0` as in `transcribe.py` line 75. -/
def coverTrace (segs : List Segment) : List ℚ :=
  segs.scanl (fun last_t seg => (progressStep last_t seg).1) 0

/-- The TXT artifact, `transcribe.py` line 93:
`"\n".join(seg.text.strip() for seg in segs if seg.text and seg.text.strip())`. -/
def renderText (segs : List Segment) : String :=
  String.intercalate "\n"
    ((segs.filter fun seg => !(seg.text == "") && !(pyStrip seg.text == "")).map
      fun seg => pyStrip seg.text)

/-- The SRT line list built by the loop at `transcribe.py` lines 98-103:
for each segment, in order, four entries are appended — the 1-based
index `str(i)`, the timing line, the stripped text, and `""`. -/
def srtLines (i : Nat) : List Segment → List String
  | [] => []
  | seg :: rest =>
      toString i ::
        (format_srt_time seg.start ++ " --> " ++ format_srt_time seg.end_) ::
          pyStrip seg.text :: "" :: srtLines (i + 1) rest

/-- The SRT artifact, `transcribe.py` line 105: `"\n".join(srt_lines)`. -/
def renderSrt (segs : List Segment) : String :=
  String.intercalate "\n" (srtLines 1 segs)

/-- JSON values, as built by `transcribe.py` lines 109-114 before
`json.dumps`.  Numbers are the rationals standing in for floats. -/
inductive Json where
  | str (s : String)
  | num (q : ℚ)
  | arr (xs : List Json)
  | obj (fields : List (String × Json))

/-- The dictionary `data` of `transcribe.py` lines 109-114: detected
language, duration, model identifier, and one entry per segment with
`start`, `end` and stripped `text`. -/
def jsonData (language : String) (duration : ℚ) (model : String)
    (segs : List Segment) : Json :=
  Json.obj
    [("detected_language", Json.str language),
     ("duration", Json.num duration),
     ("model", Json.str model),
     ("segments", Json.arr (segs.map fun s =>
        Json.obj [("start", Json.num s.start), ("end", Json.num s.end_),
                  ("text", Json.str (pyStrip s.text))]))]

/-- Modelled from the spec (§4.4 Structured data): "a single object
containing detected language, duration, model identifier, and the
segment list (each entry: start, end, trimmed text)", with the field
names of the stable schema of §3/§6.  Written independently of
`jsonData` for the refinement comparison. -/
def specStructuredData (language : String) (duration : ℚ) (model : String)
    (segs : List Segment) : Json :=
  Json.obj
    [("detected_language", Json.str language),
     ("duration", Json.num duration),
     ("model", Json.str model),
     ("segments", Json.arr (segs.map fun s =>
        Json.obj [("start", Json.num s.start), ("end", Json.num s.end_),
                  ("text", Json.str (pyStrip s.text))]))]

/-- Keys of a JSON object, in order (empty for non-objects). -/
def objKeys : Json → List String
  | Json.obj fields => fields.map Prod.fst
  | _ => []

/-- Lowercase hexadecimal digit, as used by `json.dumps` in `\uXXXX`
escapes. -/
def hexDigit (n : Nat) : Char :=
  if n < 10 then Char.ofNat (48 + n) else Char.ofNat (87 + n)

/-- Four lowercase hex digits. -/
def hex4 (n : Nat) : String :=
  String.mk [hexDigit (n / 4096 % 16), hexDigit (n / 256 % 16),
             hexDigit (n / 16 % 16), hexDigit (n % 16)]

/-- How `json.dumps(..., ensure_ascii=False)` renders one character of a
string: only the quote, the backslash and control characters are
escaped; every other character — in particular every non-ASCII
character — passes through unchanged. -/
def jsonEscapeChar (c : Char) : String :=
  if c = '"' then "\\\""
  else if c = '\\' then "\\\\"
  else if c.toNat = 8 then "\\b"
  else if c.toNat = 9 then "\\t"
  else if c.toNat = 10 then "\\n"
  else if c.toNat = 12 then "\\f"
  else if c.toNat = 13 then "\\r"
  else if c.toNat < 32 then "\\u" ++ hex4 c.toNat
  else String.singleton c

/-- Index of the last `'.'` in a character list, if any — the result of
Python's `name.rfind('.')` restricted to found positions. -/
def rfindDotAux : List Char → Option Nat
  | [] => none
  | c :: rest =>
      match rfindDotAux rest with
      | some j => some (j + 1)
      | none => if c = '.' then some 0 else none

/-- Start index of the `pathlib` suffix of a file name: the last dot,
provided it is neither the leading character nor the final one
(`PurePath.suffix`: `0 < i < len(name) - 1`). -/
def pySuffixIdx (name : String) : Option Nat :=
  match rfindDotAux name.data with
  | some i => if 0 < i ∧ i < name.length - 1 then some i else none
  | none => none

/-- `pathlib.PurePath.with_suffix` restricted to the file-name part:
replace the suffix when one exists, else append the new suffix. -/
def with_suffix (name : String) (suffix : String) : String :=
  match pySuffixIdx name with
  | some i => String.mk (name.data.take i) ++ suffix
  | none => name ++ suffix

/-- Command-line arguments of `main` (`transcribe.py` lines 49-53).
`keep_wav` is declared by the parser but never read afterwards. -/
structure Args where
  audio : String
  model : String
  language : Option String
  keep_wav : Bool

/-- The environment a run interacts with: whether the input file exists,
whether the external decoder, the model load and the lazy segment drain
succeed, and the data the model produces. -/
structure Env where
  inputExists : Bool
  ffmpegOk : Bool
  modelLoadOk : Bool
  transcribeOk : Bool
  language : String
  duration : ℚ
  segments : List Segment

/-- Failure kinds of a run, named as in the spec's §7.  `usageError`
corresponds to the `FileNotFoundError` raised at `transcribe.py`
line 57. -/
inductive PipelineError where
  | usageError
  | externalToolError
  | modelError
deriving DecidableEq

/-- Observable actions of a run, in program order: the decoder
subprocess, loading the model, draining the transcription, and file
writes.  `writeJson` records the JSON value handed to `json.dumps`. -/
inductive Action where
  | runFfmpeg (input output : String)
  | loadModel (model : String)
  | transcribe (wav : String)
  | writeText (path content : String)
  | writeJson (path : String) (content : Json)

/-- Whether an action writes an output artifact. -/
def Action.isWrite : Action → Bool
  | Action.writeText _ _ => true
  | Action.writeJson _ _ => true
  | _ => false

/-- The file paths an action creates or overwrites. -/
def touchedPaths : Action → List String
  | Action.runFfmpeg _ output => [output]
  | Action.loadModel _ => []
  | Action.transcribe _ => []
  | Action.writeText path _ => [path]
  | Action.writeJson path _ => [path]

/-- Step model of `main` (`transcribe.py` lines 43-121): the ordered
action trace together with the outcome.  The existence check precedes
the decoder, which precedes the model; all three writes happen only
after the segment stream has been fully drained, and their paths are
derived from the input name by `with_suffix`. -/
def mainRun (args : Args) (env : Env) : List Action × Except PipelineError Unit :=
  if !env.inputExists then ([], Except.error PipelineError.usageError)
  else
    let wav := with_suffix args.audio ".16k_mono.wav"
    if !env.ffmpegOk then
      ([Action.runFfmpeg args.audio wav], Except.error PipelineError.externalToolError)
    else if !env.modelLoadOk then
      ([Action.runFfmpeg args.audio wav, Action.loadModel args.model],
       Except.error PipelineError.modelError)
    else if !env.transcribeOk then
      ([Action.runFfmpeg args.audio wav, Action.loadModel args.model,
        Action.transcribe wav],
       Except.error PipelineError.modelError)
    else
      ([Action.runFfmpeg args.audio wav, Action.loadModel args.model,
        Action.transcribe wav,
        Action.writeText (with_suffix args.audio ".txt") (renderText env.segments),
        Action.writeText (with_suffix args.audio ".srt") (renderSrt env.segments),
        Action.writeJson (with_suffix args.audio ".json")
          (jsonData env.language env.duration args.model env.segments)],
       Except.ok ())

/-- A fixed argument vector for concrete instantiations. -/
def sampleArgs : Args :=
  { audio := "talk.m4a", model := "small", language := none, keep_wav := false }

/-- An environment for a fully successful run with no segments. -/
def emptyOkEnv : Env :=
  { inputExists := true, ffmpegOk := true, modelLoadOk := true,
    transcribeOk := true, language := "en", duration := 10, segments := [] }

/-- An environment whose input file is missing. -/
def missingInputEnv : Env :=
  { emptyOkEnv with inputExists := false }

/-- An environment whose recognition model fails to load. -/
def modelFailEnv : Env :=
  { emptyOkEnv with modelLoadOk := false }

lemma pyRound_eq_floor_or (q : ℚ) : pyRound q = q.floor ∨ pyRound q = q.floor + 1 := by
  simp only [pyRound]
  split
  · exact Or.inl rfl
  · split
    · exact Or.inr rfl
    · split
      · exact Or.inl rfl
      · exact Or.inr rfl

lemma pyRound_nonneg (q : ℚ) (hq : 0 ≤ q) : 0 ≤ pyRound q := by
  have hf : 0 ≤ q.floor := Rat.le_floor.mpr (by exact_mod_cast hq)
  rcases pyRound_eq_floor_or q with h | h <;> omega

lemma intPad_natCast (w : Nat) (n : ℕ) : intPad w (n : ℤ) = pad w n := by
  unfold intPad
  rw [if_neg (by omega)]
  simp

lemma pad_length (w n : Nat) : w ≤ (pad w n).length := by
  simp only [pad]
  split
  · assumption
  · rw [String.length_append]
    have h2 : (String.mk (List.replicate (w - (toString n).length) '0')).length
        = w - (toString n).length := by
      show (List.replicate (w - (toString n).length) '0').length = _
      simp
    omega

lemma format_srt_time_eq (t : ℚ) (M : ℕ) (hM : (M : ℤ) = pyRound (t * 1000)) :
    format_srt_time t =
      pad 2 (M / 3600000) ++ ":" ++ pad 2 (M % 3600000 / 60000) ++ ":" ++
        pad 2 (M % 60000 / 1000) ++ "," ++ pad 3 (M % 1000) := by
  simp only [format_srt_time]
  rw [← hM]
  have d1 : (M : ℤ) / 3600000 = ((M / 3600000 : ℕ) : ℤ) := by omega
  have d2 : (M : ℤ) % 3600000 / 60000 = ((M % 3600000 / 60000 : ℕ) : ℤ) := by omega
  have d3 : (M : ℤ) % 3600000 % 60000 / 1000 = ((M % 60000 / 1000 : ℕ) : ℤ) := by omega
  have d4 : (M : ℤ) % 3600000 % 60000 % 1000 = ((M % 1000 : ℕ) : ℤ) := by omega
  rw [d1, d2, d3, d4, intPad_natCast, intPad_natCast, intPad_natCast, intPad_natCast]

/-- C1: for every non-negative `t`, the subtitle timestamp is
`HH:MM:SS,mmm` where `M = round(t*1000)` as a non-negative integer,
hours are `M / 3600000` zero-padded to at least 2 digits, minutes are
`(M % 3600000) / 60000` and seconds `(M % 60000) / 1000`, both below 60
and 2-padded, and milliseconds `M % 1000 < 1000` are 3-padded. -/
theorem format_srt_time_spec (t : ℚ) (ht : 0 ≤ t) :
    ∃ M : ℕ, (M : ℤ) = pyRound (t * 1000) ∧
      format_srt_time t =
        pad 2 (M / 3600000) ++ ":" ++ pad 2 (M % 3600000 / 60000) ++ ":" ++
          pad 2 (M % 60000 / 1000) ++ "," ++ pad 3 (M % 1000) ∧
      (M % 3600000 / 60000 < 60 ∧ M % 60000 / 1000 < 60 ∧ M % 1000 < 1000) ∧
      (∀ w n, w ≤ (pad w n).length) := by
  have h0 : 0 ≤ pyRound (t * 1000) := pyRound_nonneg _ (by positivity)
  have hM : (((pyRound (t * 1000)).toNat : ℤ)) = pyRound (t * 1000) :=
    Int.toNat_of_nonneg h0
  exact ⟨(pyRound (t * 1000)).toNat, hM, format_srt_time_eq t _ hM, by omega, pad_length⟩

/-- Witness for C1 at `t = 3`. -/
theorem format_srt_time_spec_witness :
    ∃ M : ℕ, (M : ℤ) = pyRound ((3 : ℚ) * 1000) ∧
      format_srt_time 3 =
        pad 2 (M / 3600000) ++ ":" ++ pad 2 (M % 3600000 / 60000) ++ ":" ++
          pad 2 (M % 60000 / 1000) ++ "," ++ pad 3 (M % 1000) ∧
      (M % 3600000 / 60000 < 60 ∧ M % 60000 / 1000 < 60 ∧ M % 1000 < 1000) ∧
      (∀ w n, w ≤ (pad w n).length) :=
  format_srt_time_spec 3 (by decide)

lemma head?_scanl {α β : Type} (f : β → α → β) (b : β) (l : List α) :
    (l.scanl f b).head? = some b := by
  cases l <;> simp [List.scanl_nil, List.scanl_cons]

lemma chain'_le_scanl_progress :
    ∀ (l : List Segment) (c : ℚ),
      List.Chain' (· ≤ ·) (l.scanl (fun last_t seg => (progressStep last_t seg).1) c) := by
  intro l
  induction l with
  | nil => intro c; simp [List.scanl_nil]
  | cons s rest ih =>
      intro c
      rw [List.scanl_cons, List.singleton_append]
      refine List.chain'_cons'.mpr ⟨?_, ih _⟩
      intro y hy
      rw [head?_scanl] at hy
      cases hy
      exact le_max_left _ _

/-- C2: the covered-time trace `covered = max(covered, seg.end)`
starting at 0 is monotonically non-decreasing over any segment stream
(out-of-order `end` values included), each step updates the coverage to
`max` of the old value and the segment's end, and the per-segment
progress-bar increment `max(0, new - old)` is never negative. -/
theorem coverage_monotone (segs : List Segment) :
    List.Chain' (· ≤ ·) (coverTrace segs) ∧
    ∀ last_t seg,
      (progressStep last_t seg).1 = max last_t seg.end_ ∧
      last_t ≤ (progressStep last_t seg).1 ∧
      0 ≤ (progressStep last_t seg).2 :=
  ⟨chain'_le_scanl_progress segs 0,
   fun last_t seg => ⟨rfl, le_max_left _ _, le_max_left 0 _⟩⟩

lemma pyStrip_empty : pyStrip "" = "" := rfl

lemma filter_cond_eq (s : Segment) :
    (!(s.text == "") && !(pyStrip s.text == "")) = !(pyStrip s.text == "") := by
  by_cases h : s.text = ""
  · rw [h, pyStrip_empty]
    rfl
  · have hb : (s.text == "") = false := by
      simp [h]
    rw [hb]
    rfl

lemma renderText_map_filter (segs : List Segment) :
    (segs.filter fun seg => !(seg.text == "") && !(pyStrip seg.text == "")).map
        (fun seg => pyStrip seg.text) =
      (segs.map fun seg => pyStrip seg.text).filter fun s => !(s == "") := by
  induction segs with
  | nil => rfl
  | cons s rest ih =>
      rw [List.map_cons, List.filter_cons, List.filter_cons, filter_cond_eq]
      by_cases h : pyStrip s.text = ""
      · simp only [h]
        simpa using ih
      · have hb : (pyStrip s.text == "") = false := by simp [h]
        simp only [hb]
        simpa using ih

/-- C3: the text artifact joins the stripped segment texts with a single
newline, dropping exactly the segments whose stripped text is empty; on
the spec's concrete two-segment example it is `"Hello\nworld"`. -/
theorem text_artifact_spec :
    (∀ segs : List Segment,
        renderText segs =
          String.intercalate "\n"
            ((segs.map fun seg => pyStrip seg.text).filter fun s => !(s == ""))) ∧
    renderText [⟨0, 3456/1000, " Hello "⟩, ⟨4, 9999/1000, "world"⟩] = "Hello\nworld" :=
  ⟨fun segs => by rw [renderText, renderText_map_filter], by decide⟩

lemma srtLines_eq_flatMap :
    ∀ (l : List Segment) (i : Nat),
      srtLines i l =
        (List.enumFrom i l).flatMap fun p =>
          [toString p.1,
           format_srt_time p.2.start ++ " --> " ++ format_srt_time p.2.end_,
           pyStrip p.2.text, ""] := by
  intro l
  induction l with
  | nil => intro i; rfl
  | cons s rest ih =>
      intro i
      rw [srtLines, List.enumFrom_cons, List.flatMap_cons, ih (i + 1)]
      rfl

lemma srtLines_length : ∀ (l : List Segment) (i : Nat),
    (srtLines i l).length = 4 * l.length := by
  intro l
  induction l with
  | nil => intro i; rfl
  | cons s rest ih =>
      intro i
      rw [srtLines]
      simp [ih (i + 1), List.length_cons]
      ring

/-- C4: the SRT artifact is the newline-join of one four-line block per
segment, in order and including empty-text segments: the 1-based index,
the `start --> end` timing line, the stripped text, and a blank
separator line. -/
theorem srt_artifact_spec (segs : List Segment) :
    renderSrt segs =
      String.intercalate "\n"
        ((List.enumFrom 1 segs).flatMap fun p =>
          [toString p.1,
           format_srt_time p.2.start ++ " --> " ++ format_srt_time p.2.end_,
           pyStrip p.2.text, ""]) ∧
    (srtLines 1 segs).length = 4 * segs.length :=
  ⟨by rw [renderSrt, srtLines_eq_flatMap], srtLines_length segs 1⟩

/-- C5: a run whose collected segment list is empty succeeds and writes
an empty text artifact, an empty subtitle artifact, and a structured
artifact whose segment list is empty. -/
theorem empty_segments_spec (args : Args) (env : Env)
    (h1 : env.inputExists = true) (h2 : env.ffmpegOk = true)
    (h3 : env.modelLoadOk = true) (h4 : env.transcribeOk = true)
    (h5 : env.segments = []) :
    (mainRun args env).2 = Except.ok () ∧
    Action.writeText (with_suffix args.audio ".txt") "" ∈ (mainRun args env).1 ∧
    Action.writeText (with_suffix args.audio ".srt") "" ∈ (mainRun args env).1 ∧
    Action.writeJson (with_suffix args.audio ".json")
        (Json.obj [("detected_language", Json.str env.language),
                   ("duration", Json.num env.duration),
                   ("model", Json.str args.model),
                   ("segments", Json.arr [])]) ∈ (mainRun args env).1 := by
  have htxt : renderText [] = "" := rfl
  have hsrt : renderSrt [] = "" := rfl
  have hjson : jsonData env.language env.duration args.model [] =
      Json.obj [("detected_language", Json.str env.language),
                ("duration", Json.num env.duration),
                ("model", Json.str args.model),
                ("segments", Json.arr [])] := rfl
  simp [mainRun, h1, h2, h3, h4, h5, htxt, hsrt, hjson]

/-- Witness for C5: the successful zero-segment run on the sample
arguments. -/
theorem empty_segments_spec_witness :
    (mainRun sampleArgs emptyOkEnv).2 = Except.ok () ∧
    Action.writeText (with_suffix sampleArgs.audio ".txt") ""
      ∈ (mainRun sampleArgs emptyOkEnv).1 ∧
    Action.writeText (with_suffix sampleArgs.audio ".srt") ""
      ∈ (mainRun sampleArgs emptyOkEnv).1 ∧
    Action.writeJson (with_suffix sampleArgs.audio ".json")
        (Json.obj [("detected_language", Json.str emptyOkEnv.language),
                   ("duration", Json.num emptyOkEnv.duration),
                   ("model", Json.str sampleArgs.model),
                   ("segments", Json.arr [])])
      ∈ (mainRun sampleArgs emptyOkEnv).1 :=
  empty_segments_spec sampleArgs emptyOkEnv rfl rfl rfl rfl rfl

/-- C6: the structured artifact is the object the spec describes
(refinement against `specStructuredData`, written from the spec's
words), its top-level field names are exactly `detected_language`,
`duration`, `model`, `segments`, and the `ensure_ascii=False` string
escaping leaves every non-ASCII character unchanged. -/
theorem structured_data_spec :
    (∀ (language : String) (duration : ℚ) (model : String) (segs : List Segment),
        jsonData language duration model segs =
          specStructuredData language duration model segs) ∧
    (∀ (language : String) (duration : ℚ) (model : String) (segs : List Segment),
        objKeys (jsonData language duration model segs) =
          ["detected_language", "duration", "model", "segments"]) ∧
    (∀ c : Char, 128 ≤ c.toNat → jsonEscapeChar c = String.singleton c) := by
  refine ⟨fun _ _ _ _ => rfl, fun _ _ _ _ => rfl, ?_⟩
  intro c hc
  have h1 : ¬(c = '"') := by
    intro h
    rw [h] at hc
    exact absurd hc (by decide)
  have h2 : ¬(c = '\\') := by
    intro h
    rw [h] at hc
    exact absurd hc (by decide)
  simp only [jsonEscapeChar, if_neg h1, if_neg h2]
  rw [if_neg (by omega), if_neg (by omega), if_neg (by omega), if_neg (by omega),
    if_neg (by omega), if_neg (by omega)]

/-- Witness for C6: the non-ASCII character `é` passes through the
escaping unchanged. -/
theorem structured_data_spec_witness :
    jsonEscapeChar (Char.ofNat 233) = String.singleton (Char.ofNat 233) :=
  structured_data_spec.2.2 (Char.ofNat 233) (by decide)

/-- C7: when the input file does not exist the run fails with the usage
error and performs no action at all — no decoder subprocess, no model
load, and no file writes. -/
theorem missing_input_spec (args : Args) (env : Env)
    (h : env.inputExists = false) :
    mainRun args env = ([], Except.error PipelineError.usageError) := by
  simp [mainRun, h]

/-- Witness for C7: the run on a missing input file. -/
theorem missing_input_spec_witness :
    mainRun sampleArgs missingInputEnv =
      ([], Except.error PipelineError.usageError) :=
  missing_input_spec sampleArgs missingInputEnv rfl

/-- C8: if the model fails to load or fails while the lazy segment
stream is drained, the run ends in an error and its trace contains no
output write — every export happens only after the full drain. -/
theorem model_failure_no_export (args : Args) (env : Env)
    (h : env.modelLoadOk = false ∨ env.transcribeOk = false) :
    ((mainRun args env).1.all fun a => !a.isWrite) = true ∧
    (mainRun args env).2 ≠ Except.ok () := by
  rcases h with h | h
  · cases hin : env.inputExists <;> cases hff : env.ffmpegOk <;>
      simp [mainRun, hin, hff, h, Action.isWrite]
  · cases hin : env.inputExists <;> cases hff : env.ffmpegOk <;>
      cases hml : env.modelLoadOk <;>
        simp [mainRun, hin, hff, hml, h, Action.isWrite]

/-- Witness for C8: a run whose model fails to load. -/
theorem model_failure_no_export_witness :
    ((mainRun sampleArgs modelFailEnv).1.all fun a => !a.isWrite) = true ∧
    (mainRun sampleArgs modelFailEnv).2 ≠ Except.ok () :=
  model_failure_no_export sampleArgs modelFailEnv (Or.inl rfl)

/-- C9: the `--keep_wav` flag is parsed but never read, so two runs that
differ only in it perform exactly the same actions with the same
outcome. -/
theorem keep_wav_no_effect (a : Args) (env : Env) (b : Bool) :
    mainRun { a with keep_wav := b } env = mainRun a env := by
  cases a
  rfl

lemma rfindDotAux_append (l t : List Char) (ht : rfindDotAux t = none) :
    rfindDotAux (l ++ '.' :: t) = some l.length := by
  induction l with
  | nil => simp [rfindDotAux, ht]
  | cons c rest ih => simp [rfindDotAux, ih]

lemma length_pos_of_ne_empty {s : String} (h : s ≠ "") : 0 < s.length := by
  cases s with
  | mk data =>
    cases data with
    | nil => exact absurd rfl h
    | cons c cs => simp [String.length]

lemma with_suffix_self (stem ext : String) (hs : stem ≠ "")
    (hext : rfindDotAux ext.data = none) (hne : ext ≠ "") :
    with_suffix (stem ++ "." ++ ext) ("." ++ ext) = stem ++ "." ++ ext := by
  have hdata : (stem ++ "." ++ ext).data = stem.data ++ '.' :: ext.data := by
    rw [String.data_append, String.data_append, List.append_assoc]
    exact rfl
  have hfind : rfindDotAux (stem ++ "." ++ ext).data = some stem.data.length := by
    rw [hdata]
    exact rfindDotAux_append _ _ hext
  have hlen : stem.data.length = stem.length := rfl
  have hslen : 0 < stem.length := length_pos_of_ne_empty hs
  have helen : 0 < ext.length := length_pos_of_ne_empty hne
  have htot : (stem ++ "." ++ ext).length = stem.length + 1 + ext.length := by
    rw [String.length_append, String.length_append]
    rfl
  have hcond : 0 < stem.data.length ∧
      stem.data.length < (stem ++ "." ++ ext).length - 1 := by
    rw [hlen, htot]
    omega
  unfold with_suffix pySuffixIdx
  rw [hfind]
  simp only [if_pos hcond]
  rw [hdata, List.take_left]
  show stem ++ ("." ++ ext) = _
  rw [String.append_assoc]

lemma with_suffix_txt (stem : String) (hs : stem ≠ "") :
    with_suffix (stem ++ ".txt") ".txt" = stem ++ ".txt" := by
  have e : stem ++ "." ++ "txt" = stem ++ ".txt" := by
    rw [String.append_assoc]
    exact rfl
  have h := with_suffix_self stem "txt" hs (by decide) (by decide)
  rw [e] at h
  exact h

lemma with_suffix_srt (stem : String) (hs : stem ≠ "") :
    with_suffix (stem ++ ".srt") ".srt" = stem ++ ".srt" := by
  have e : stem ++ "." ++ "srt" = stem ++ ".srt" := by
    rw [String.append_assoc]
    exact rfl
  have h := with_suffix_self stem "srt" hs (by decide) (by decide)
  rw [e] at h
  exact h

lemma with_suffix_json (stem : String) (hs : stem ≠ "") :
    with_suffix (stem ++ ".json") ".json" = stem ++ ".json" := by
  have e : stem ++ "." ++ "json" = stem ++ ".json" := by
    rw [String.append_assoc]
    exact rfl
  have h := with_suffix_self stem "json" hs (by decide) (by decide)
  rw [e] at h
  exact h

lemma mainRun_touched (args : Args) (env : Env) :
    ∀ p ∈ (mainRun args env).1.flatMap touchedPaths,
      p ∈ [with_suffix args.audio ".16k_mono.wav", with_suffix args.audio ".txt",
           with_suffix args.audio ".srt", with_suffix args.audio ".json"] := by
  intro p hp
  cases hin : env.inputExists <;> cases hff : env.ffmpegOk <;>
    cases hml : env.modelLoadOk <;> cases htr : env.transcribeOk <;>
      simp_all [mainRun, touchedPaths]

/-- C10: artifact paths replace the input's final extension — an input
already named `stem.txt` / `stem.srt` / `stem.json` has the matching
artifact written onto the input path itself — and a run only ever
touches the four derived paths (waveform, txt, srt, json), leaving every
other file alone. -/
theorem output_path_overwrite_spec (stem : String) (hs : stem ≠ "")
    (args : Args) (env : Env) :
    (with_suffix (stem ++ ".txt") ".txt" = stem ++ ".txt" ∧
     with_suffix (stem ++ ".srt") ".srt" = stem ++ ".srt" ∧
     with_suffix (stem ++ ".json") ".json" = stem ++ ".json") ∧
    ∀ p ∈ (mainRun args env).1.flatMap touchedPaths,
      p ∈ [with_suffix args.audio ".16k_mono.wav", with_suffix args.audio ".txt",
           with_suffix args.audio ".srt", with_suffix args.audio ".json"] :=
  ⟨⟨with_suffix_txt stem hs, with_suffix_srt stem hs, with_suffix_json stem hs⟩,
   mainRun_touched args env⟩

/-- Witness for C10 with stem `a` and the sample run. -/
theorem output_path_overwrite_spec_witness :
    (with_suffix ("a" ++ ".txt") ".txt" = "a" ++ ".txt" ∧
     with_suffix ("a" ++ ".srt") ".srt" = "a" ++ ".srt" ∧
     with_suffix ("a" ++ ".json") ".json" = "a" ++ ".json") ∧
    ∀ p ∈ (mainRun sampleArgs emptyOkEnv).1.flatMap touchedPaths,
      p ∈ [with_suffix sampleArgs.audio ".16k_mono.wav",
           with_suffix sampleArgs.audio ".txt",
           with_suffix sampleArgs.audio ".srt",
           with_suffix sampleArgs.audio ".json"] :=
  output_path_overwrite_spec "a" (by decide) sampleArgs emptyOkEnv

end Transcribe
